import Mathlib

/-!
Verification of the authenticated-HTTP-client core and adapter-level
behaviours of the network-mcp-docker-suite repository.

The Python sources are shallowly embedded as executable Lean functions.
Network I/O is modelled by an oracle (`Upstream`) mapping the index of an
HTTP attempt to its outcome; a raised transport-level exception is the
`Except.error` case.  JSON documents are modelled by the inductive `Json`
(numbers restricted to integers, which covers every value the claims
touch).  Python strings are modelled as `String`/`List Char`; `None` is
`Option.none`.  The `print` log lines of `CatalystCenterAPI.authenticate`,
whose text embeds upstream-controlled failure data, are collected in the
trace; purely informational startup prints are not modelled.
-/

/-- JSON values (numbers restricted to integers). -/
inductive Json where
  | null
  | bool (b : Bool)
  | num (n : Int)
  | str (s : String)
  | arr (items : List Json)
  | obj (fields : List (String × Json))
deriving Repr

namespace Json

/-- Python truthiness of a JSON value (`if not x` tests). -/
def truthy : Json → Bool
  | .null => false
  | .bool b => b
  | .num n => n != 0
  | .str s => s != ""
  | .arr items => !items.isEmpty
  | .obj fields => !fields.isEmpty

/-- Python `dict.get(k)`: first binding of `k`, or `None`. -/
def lookupField (fields : List (String × Json)) (k : String) : Option Json :=
  match fields with
  | [] => none
  | (k', v) :: rest => if k' == k then some v else lookupField rest k

/-- Python `'k' in item` on a dict. -/
def hasKey (fields : List (String × Json)) (k : String) : Bool :=
  (lookupField fields k).isSome

/-- Replace the value bound to `k` (Python `item[k] = v` on an existing key). -/
def setField (fields : List (String × Json)) (k : String) (v : Json) :
    List (String × Json) :=
  fields.map (fun kv => if kv.1 == k then (kv.1, v) else kv)

end Json

/-- Python truthiness of an optional JSON value (`if not self.token`). -/
def optTruthy : Option Json → Bool
  | none => false
  | some j => j.truthy

/-- Python truthiness of an optional string (`if not CATC_URL` on `os.getenv`). -/
def optStrTruthy : Option String → Bool
  | none => false
  | some s => s != ""

/-- An HTTP response: status code, parsed JSON body, and raw text. -/
structure HttpResponse where
  status : Nat
  body : Json
  text : String
deriving Repr

/-- Outcome of one HTTP attempt: a response, or a raised transport
exception carrying its message. -/
abbrev HttpResult := Except String HttpResponse

/-- Oracle for the upstream server seen by `CatalystCenterAPI`:
`authResp n` is the outcome of the `n`-th POST to the authentication
endpoint, `reqResp n` the outcome of the `n`-th data-API attempt.
GET and POST bodies of the client are verb-independent, so one request
oracle covers both verbs. -/
structure Upstream where
  authResp : Nat → HttpResult
  reqResp : Nat → HttpResult

/-- Mutable state of the client: the cached token
(`self.token`, absent at construction). -/
structure ClientState where
  token : Option Json
deriving Repr

/-- Observable trace of a call: how many authentication POSTs and how many
data-API attempts were issued, and the log lines printed by
`authenticate` on its failure branches. -/
structure Trace where
  authCount : Nat
  reqCount : Nat
  logs : List String
deriving Repr, DecidableEq

def Trace.init : Trace := ⟨0, 0, []⟩

/-- Errors surfaced by a client call.  `authError` is the
`Exception("Failed to authenticate with Catalyst Center")` raised by
`_get_headers`; `httpError` is the `requests.exceptions.HTTPError` raised
by `raise_for_status`; `transport` is any other exception raised by the
HTTP library, carrying its message. -/
inductive CallError where
  | authError
  | httpError (status : Nat)
  | transport (msg : String)
deriving Repr, DecidableEq

namespace CatalystCenterAPI

/-- `CatalystCenterAPI.authenticate` (catc_mcp_server.py lines 102-124):
POST to the auth endpoint; on HTTP 200 store `response.json().get("Token")`
and return `True`; on any other status print the failure line and return
`False`; on a raised exception print the error line and return `False`
(a 200 whose body is not a dict raises `AttributeError` inside the `try`,
landing in the same `except` branch).  The token attempt counter is
advanced, and the state is returned unchanged on every failure branch. -/
def authenticate (up : Upstream) (st : ClientState) (tr : Trace) :
    Bool × ClientState × Trace :=
  match up.authResp tr.authCount with
  | .ok r =>
    if r.status == 200 then
      match r.body with
      | .obj fields =>
        (true, { token := Json.lookupField fields "Token" },
          { authCount := tr.authCount + 1, reqCount := tr.reqCount, logs := tr.logs })
      | _ =>
        -- `response.json().get(...)` raises AttributeError, caught below;
        -- the AttributeError text is upstream-independent.
        (false, st,
          { authCount := tr.authCount + 1, reqCount := tr.reqCount,
            logs := tr.logs ++ ["❌ Authentication error: AttributeError"] })
    else
      (false, st,
        { authCount := tr.authCount + 1, reqCount := tr.reqCount,
          logs := tr.logs ++
            ["❌ Authentication failed: " ++ toString r.status ++ " - " ++ r.text] })
  | .error e =>
    (false, st,
      { authCount := tr.authCount + 1, reqCount := tr.reqCount,
        logs := tr.logs ++ ["❌ Authentication error: " ++ e] })

/-- `CatalystCenterAPI._get_headers` (lines 126-135): authenticate when no
truthy token is cached; `false` in the first component models the raised
`Exception("Failed to authenticate with Catalyst Center")`. -/
def get_headers (up : Upstream) (st : ClientState) (tr : Trace) :
    Bool × ClientState × Trace :=
  if optTruthy st.token then (true, st, tr)
  else authenticate up st tr

/-- One data-API attempt: consult the oracle and advance the counter. -/
def doRequest (up : Upstream) (tr : Trace) : HttpResult × Trace :=
  (up.reqResp tr.reqCount, { tr with reqCount := tr.reqCount + 1 })

/-- `response.raise_for_status()`: `requests` raises `HTTPError` exactly for
status codes in [400, 600); otherwise `response.json()` is returned. -/
def raiseForStatus (r : HttpResponse) : Except CallError Json :=
  if 400 ≤ r.status ∧ r.status < 600 then .error (.httpError r.status)
  else .ok r.body

/-- `CatalystCenterAPI.get` / `.post` (lines 137-154 / 156-173; the two
bodies are identical up to the HTTP verb, abstracted by the oracle):
build headers (authenticating if needed — this call is outside the `try`,
so its exception propagates), issue the request, on a 401 re-authenticate
once and, only if that succeeded, rebuild headers and replay once, then
`raise_for_status` the final response and return its JSON body.  The
`except` clause prints and re-raises, so errors pass through. -/
def request (up : Upstream) (st : ClientState) (tr : Trace) :
    Except CallError Json × ClientState × Trace :=
  match get_headers up st tr with
  | (false, st1, tr1) => (.error .authError, st1, tr1)
  | (true, st1, tr1) =>
    match doRequest up tr1 with
    | (.error e, tr2) => (.error (.transport e), st1, tr2)
    | (.ok r1, tr2) =>
      if r1.status == 401 then
        match authenticate up st1 tr2 with
        | (false, st2, tr3) => (raiseForStatus r1, st2, tr3)
        | (true, st2, tr3) =>
          match get_headers up st2 tr3 with
          | (false, st3, tr4) => (.error .authError, st3, tr4)
          | (true, st3, tr4) =>
            match doRequest up tr4 with
            | (.error e, tr5) => (.error (.transport e), st3, tr5)
            | (.ok r2, tr5) => (raiseForStatus r2, st3, tr5)
      else (raiseForStatus r1, st1, tr2)

/-- `CatalystCenterAPI.get` is `request` with the oracle's request channel
interpreted as GETs. -/
def get (up : Upstream) (st : ClientState) (tr : Trace) :
    Except CallError Json × ClientState × Trace :=
  request up st tr

/-- `CatalystCenterAPI.post` is `request` with the oracle's request channel
interpreted as POSTs. -/
def post (up : Upstream) (st : ClientState) (tr : Trace) :
    Except CallError Json × ClientState × Trace :=
  request up st tr

end CatalystCenterAPI

/-! ## String utilities shared by the adapters -/

/-- Python `needle in hay` on lists of characters: some split
`hay = a ++ needle ++ b` exists. -/
def isSubstringL (p : List Char) : List Char → Bool
  | [] => p.isEmpty
  | c :: t => p.isPrefixOf (c :: t) || isSubstringL p t

/-- Python `needle in hay` on strings. -/
def strContains (hay needle : String) : Bool :=
  isSubstringL needle.toList hay.toList

/-- Python `s.replace(old, new)`: scan left to right, replacing each
non-overlapping occurrence of `old`.  The fuel argument (instantiated with
the length of the scanned list, always sufficient) keeps the recursion
structural so that the function reduces definitionally. -/
def replaceAllGo (p r : List Char) : Nat → List Char → List Char
  | 0, s => s
  | _ + 1, [] => []
  | fuel + 1, c :: s =>
    if p.isPrefixOf (c :: s) then
      r ++ replaceAllGo p r fuel (List.drop (p.length - 1) s)
    else
      c :: replaceAllGo p r fuel s

/-- Python `s.replace(old, new)` on strings (every caller in the sources
guards against an empty `old`, where CPython semantics would differ). -/
def pyReplace (s old new : String) : String :=
  String.mk (replaceAllGo old.toList new.toList s.toList.length s.toList)

mutual

/-- Python `str(x)` of a JSON-decoded value: containers render with
Python `repr` (single-quoted strings, braces written via escapes). -/
def pyRepr : Json → String
  | .null => "None"
  | .bool b => if b then "True" else "False"
  | .num n => toString n
  | .str s => "\x27" ++ s ++ "\x27"
  | .arr items => "[" ++ pyReprItems items ++ "]"
  | .obj fields => "\x7b" ++ pyReprFields fields ++ "\x7d"

/-- Comma-separated `repr`s of list elements. -/
def pyReprItems : List Json → String
  | [] => ""
  | [j] => pyRepr j
  | j :: rest => pyRepr j ++ ", " ++ pyReprItems rest

/-- Comma-separated `repr`s of dict entries. -/
def pyReprFields : List (String × Json) → String
  | [] => ""
  | [(k, v)] => "\x27" ++ k ++ "\x27: " ++ pyRepr v
  | (k, v) :: rest => "\x27" ++ k ++ "\x27: " ++ pyRepr v ++ ", " ++ pyReprFields rest

end

/-- Python `str(x)`: a string renders as itself, anything else as `repr`. -/
def pyStr : Json → String
  | .str s => s
  | j => pyRepr j

/-- Python `len(x)` on a JSON value: defined for strings, lists and dicts,
`none` models the raised `TypeError`. -/
def pyLen : Json → Option Nat
  | .str s => some s.length
  | .arr items => some items.length
  | .obj fields => some fields.length
  | _ => none

/-! ## Meraki response-fixing client (meraki_mcp_server.py lines 76-170) -/

namespace MerakiResponseFixingClient

/-- `if field in item and item[field] is None: item[field] = ""`. -/
def fixNullString (fields : List (String × Json)) (name : String) :
    List (String × Json) :=
  match Json.lookupField fields name with
  | some .null => Json.setField fields name (.str "")
  | _ => fields

/-- The per-category loops over a list of string field names. -/
def fixNullStrings (fields : List (String × Json)) (names : List String) :
    List (String × Json) :=
  names.foldl fixNullString fields

/-- `if field in item and item[field] is None: item[field] = []`
(the `tags` / `productTypes` repairs). -/
def fixNullArr (fields : List (String × Json)) (name : String) :
    List (String × Json) :=
  match Json.lookupField fields name with
  | some .null => Json.setField fields name (.arr [])
  | _ => fields

/-- `if name in item and isinstance(item[name], dict):` repair the listed
string sub-fields of the nested object (`network`, `fromVersion`,
`toVersion` of a firmware upgrade). -/
def fixNested (fields : List (String × Json)) (name : String)
    (subs : List String) : List (String × Json) :=
  match Json.lookupField fields name with
  | some (.obj subf) => Json.setField fields name (.obj (fixNullStrings subf subs))
  | _ => fields

/-- Device string fields: `None` becomes `""`, any other non-string value
is converted with `str(...)`. -/
def fixDeviceField (fields : List (String × Json)) (name : String) :
    List (String × Json) :=
  match Json.lookupField fields name with
  | some .null => Json.setField fields name (.str "")
  | some (.str _) => fields
  | some v => Json.setField fields name (.str (pyStr v))
  | none => fields

/-- Lines 103-131: the firmware-upgrade repairs, in source order. -/
def fixFirmwareUpgrade (fields : List (String × Json)) : List (String × Json) :=
  let fields := fixNullStrings fields
    ["upgradeId", "upgradeBatchId", "status", "time", "completedAt"]
  let fields := fixNested fields "network" ["id", "name"]
  let fields := fixNested fields "fromVersion" ["id", "firmware", "shortName"]
  let fields := fixNested fields "toVersion" ["id", "firmware", "shortName"]
  fixNullArr fields "productTypes"

/-- Lines 133-144: the network repairs. -/
def fixNetwork (fields : List (String × Json)) : List (String × Json) :=
  fixNullArr
    (fixNullStrings fields ["enrollmentString", "notes", "url", "timeZone", "name"])
    "tags"

/-- Lines 146-162: the device repairs. -/
def fixDevice (fields : List (String × Json)) : List (String × Json) :=
  fixNullArr
    (["lanIp", "wan1Ip", "wan2Ip", "name", "notes", "address", "firmware",
      "mac", "model", "serial", "imei"].foldl fixDeviceField fields)
    "tags"

/-- Lines 96-162: classify a list item as firmware upgrade / network /
device by its keys and apply the matching repairs; non-dict items are left
alone. -/
def fixItem : Json → Json
  | .obj fields =>
    let is_network := Json.hasKey fields "enrollmentString" ||
      Json.hasKey fields "productTypes"
    let is_device := Json.hasKey fields "serial" || Json.hasKey fields "lanIp" ||
      Json.hasKey fields "model"
    let is_firmware_upgrade := Json.hasKey fields "upgradeId" ||
      Json.hasKey fields "upgradeBatchId" || Json.hasKey fields "completedAt"
    if is_firmware_upgrade then .obj (fixFirmwareUpgrade fields)
    else if is_network then .obj (fixNetwork fields)
    else if is_device then .obj (fixDevice fields)
    else .obj fields
  | j => j

/-- `if isinstance(data, list): for item in data: ...` — only a top-level
list is repaired. -/
def fixData : Json → Json
  | .arr items => .arr (items.map fixItem)
  | j => j

/-- `MerakiResponseFixingClient.request` (lines 84-170): responses of
status 200 whose URL mentions a networks / devices / firmware-upgrades
endpoint have their body repaired (and re-serialised into the response);
every other response passes through untouched. -/
def request (url : String) (resp : HttpResponse) : HttpResponse :=
  if (strContains url "/networks" || strContains url "/devices" ||
      strContains url "/firmware/upgrades") && resp.status == 200 then
    { resp with body := fixData resp.body }
  else resp

end MerakiResponseFixingClient

/-! ## IOS XE SSH adapter (ios_xe_mcp_server.py) -/

/-- `sanitize_error_message` (lines 56-60): when the configured password is
truthy and occurs in the message, replace every occurrence with the
redaction marker. -/
def sanitize_error_message (password : String) (error_msg : String) : String :=
  if password != "" && strContains error_msg password then
    pyReplace error_msg password "***REDACTED***"
  else error_msg

/-- Oracle for one SSH device interaction: the outcome of
`ConnectHandler(**device)` and of each command sent on the open
connection (`Except.error` is a raised exception carrying `str(e)`). -/
structure SshDevice where
  connectResult : Except String Unit
  sendCommand : String → Except String String
  sendConfigSet : List String → Except String String

/-- Observable outcome of an SSH tool call: the returned string, how many
connections were successfully opened and how many were closed. -/
structure SshOutcome where
  result : String
  opened : Nat
  closed : Nat
deriving Repr, DecidableEq

/-- Lines 128-132 / 177-181: wrap the sanitized error, prefixing the
authentication hint when the exception text mentions authentication. -/
def classifiedError (password host raw e : String) : String :=
  let safe_error := sanitize_error_message password raw
  if strContains e "Authentication" || strContains e.toLower "auth" then
    "Authentication to device failed.\n\nCommon causes:\n1. Invalid credentials in environment\n2. Device SSH configuration\n3. Network connectivity\n\nDevice: cisco_ios " ++
      host ++ ":22\n\n" ++ safe_error
  else safe_error

/-- `show_command` (lines 92-132): validate `host`, open the connection in
a `with` block (so it is closed on every exit path of the block), send the
command, and return either its output or a sanitized error message. -/
def show_command (password : String) (dev : SshDevice) (command host : String) :
    SshOutcome :=
  if host == "" then ⟨"Error: host parameter is required", 0, 0⟩
  else
    match dev.connectResult with
    | .error e =>
      ⟨classifiedError password host
        ("Error executing command on " ++ host ++ ": " ++ e) e, 0, 0⟩
    | .ok _ =>
      match dev.sendCommand command with
      | .ok output => ⟨output, 1, 1⟩
      | .error e =>
        ⟨classifiedError password host
          ("Error executing command on " ++ host ++ ": " ++ e) e, 1, 1⟩

/-- `config_command` (lines 134-181): validate `host` and the command
list, open the connection in a `with` block, send the configuration set
then `write memory`, and return the combined output or a sanitized error
message; the connection is closed exactly once whenever it was opened. -/
def config_command (password : String) (dev : SshDevice) (commands : List String)
    (host : String) : SshOutcome :=
  if host == "" then ⟨"Error: host parameter is required", 0, 0⟩
  else if commands.isEmpty then ⟨"Error: commands must be a non-empty list", 0, 0⟩
  else
    match dev.connectResult with
    | .error e =>
      ⟨classifiedError password host
        ("Error during configuration on " ++ host ++ ": " ++ e) e, 0, 0⟩
    | .ok _ =>
      match dev.sendConfigSet commands with
      | .error e =>
        ⟨classifiedError password host
          ("Error during configuration on " ++ host ++ ": " ++ e) e, 1, 1⟩
      | .ok output =>
        match dev.sendCommand "write memory" with
        | .error e =>
          ⟨classifiedError password host
            ("Error during configuration on " ++ host ++ ": " ++ e) e, 1, 1⟩
        | .ok save_output =>
          ⟨"Configuration successfully applied to " ++ host ++ ":\n" ++ output ++
            "\n\nSave result:\n" ++ save_output, 1, 1⟩

/-! ## Environment validation at adapter startup

Each adapter's module level reads its configuration from the process
environment (after merging a `.env` file into it — the merged result is
the `Env` below) and validates required values before any network-capable
object exists; a `.error` models the raised `ValueError` / `exit(1)` with
the message printed or carried, aborting startup. -/

/-- The process environment as seen through `os.getenv`. -/
abbrev Env := String → Option String

/-- Configuration of the Catalyst Center adapter. -/
structure CatcConfig where
  url : String
  username : String
  password : String
  verifySsl : Bool
deriving Repr, DecidableEq

/-- catc_mcp_server.py lines 66-79: read `CATC_URL`, `CATC_USERNAME`,
`CATC_PASSWORD` and `CATC_VERIFY_SSL` and fail fast on a missing (or
empty, which Python treats as falsy) required value, in source order. -/
def catcStartup (env : Env) : Except String CatcConfig :=
  let url := env "CATC_URL"
  let username := env "CATC_USERNAME"
  let password := env "CATC_PASSWORD"
  let verify := ((env "CATC_VERIFY_SSL").getD "false").toLower
  if !optStrTruthy url then .error "CATC_URL environment variable is required"
  else if !optStrTruthy username then
    .error "CATC_USERNAME environment variable is required"
  else if !optStrTruthy password then
    .error "CATC_PASSWORD environment variable is required"
  else
    .ok ⟨url.getD "", username.getD "", password.getD "",
      verify == "true" || verify == "1" || verify == "yes"⟩

/-- Configuration of the ISE adapter. -/
structure IseConfig where
  host : String
  username : String
  password : String
  version : String
  verifySsl : Bool
deriving Repr, DecidableEq

/-- ise_mcp_server.py lines 72-82: `if not all([ISE_HOST, ISE_USERNAME,
ISE_PASSWORD]): raise ValueError(...)`. -/
def iseStartup (env : Env) : Except String IseConfig :=
  let host := env "ISE_HOST"
  let username := env "ISE_USERNAME"
  let password := env "ISE_PASSWORD"
  let version := (env "ISE_VERSION").getD "1.0"
  let verify := ((env "ISE_VERIFY_SSL").getD "False").toLower == "true"
  if !(optStrTruthy host && optStrTruthy username && optStrTruthy password) then
    .error "ISE_HOST, ISE_USERNAME, and ISE_PASSWORD environment variables are required"
  else .ok ⟨host.getD "", username.getD "", password.getD "", version, verify⟩

/-- Configuration of the IOS XE adapter. -/
structure IosXeConfig where
  username : String
  password : String
deriving Repr, DecidableEq

/-- ios_xe_mcp_server.py lines 43-50: `if not DEFAULT_USERNAME or not
DEFAULT_PASSWORD: ... raise ValueError(...)`. -/
def iosxeStartup (env : Env) : Except String IosXeConfig :=
  let username := env "IOS_XE_USERNAME"
  let password := env "IOS_XE_PASSWORD"
  if !optStrTruthy username || !optStrTruthy password then
    .error "Missing required environment credentials"
  else .ok ⟨username.getD "", password.getD ""⟩

/-- Configuration of the Splunk adapter. -/
structure SplunkConfig where
  host : String
  port : String
  apiKey : String
  verifySsl : Bool
deriving Repr, DecidableEq

/-- splunk_mcp_server.py lines 70-89: `SPLUNK_HOST` and a well-formed
`SPLUNK_API_KEY` are required (`exit(1)` with the logged message
otherwise); `SPLUNK_PORT` defaults to `"8089"`. -/
def splunkStartup (env : Env) : Except String SplunkConfig :=
  let host := env "SPLUNK_HOST"
  let port := (env "SPLUNK_PORT").getD "8089"
  let apiKey := env "SPLUNK_API_KEY"
  let verify := ((env "SPLUNK_VERIFY_SSL").getD "false").toLower == "true"
  if !optStrTruthy host then .error "❌ SPLUNK_HOST not configured!"
  else if !optStrTruthy apiKey || (apiKey.getD "").startsWith "your_actual_" then
    .error "❌ SPLUNK_API_KEY not configured properly!"
  else .ok ⟨host.getD "", port, apiKey.getD "", verify⟩

/-- meraki_mcp_server.py lines 63-70: `MERAKI_KEY` must be present and not
the placeholder (`exit(1)` with the printed message otherwise). -/
def merakiStartup (env : Env) : Except String String :=
  let apiKey := env "MERAKI_KEY"
  if !optStrTruthy apiKey || (apiKey.getD "").startsWith "your_actual_" then
    .error "❌ MERAKI_KEY not configured properly!"
  else .ok (apiKey.getD "")

/-- Configuration of the ThousandEyes adapter. -/
structure TeConfig where
  token : String
  baseUrl : String
deriving Repr, DecidableEq

/-- thousandeyes_mcp_server.py lines 64-71: `TE_TOKEN` is required;
`TE_BASE_URL` has a documented default. -/
def teStartup (env : Env) : Except String TeConfig :=
  let token := env "TE_TOKEN"
  let baseUrl := (env "TE_BASE_URL").getD "https://api.thousandeyes.com/v7"
  if !optStrTruthy token then .error "TE_TOKEN environment variable is required"
  else .ok ⟨token.getD "", baseUrl⟩

/-! ## ISE paginated list tools (ise_mcp_server.py) -/

/-- The query parameters an ISE list tool sends upstream. -/
structure IseParams where
  page : Int
  size : Int
  filter : Option String
deriving Repr, DecidableEq

/-- The parameter dict every paginated ISE list tool builds verbatim:
`params = {"page": page, "size": min(size, 100)}` plus, when the filter
expression is truthy, `params["filter"] = filter_expression`. -/
def isePageParams (filter_expression : Option String) (page size : Int) :
    IseParams :=
  { page := page, size := min size 100,
    filter := if optStrTruthy filter_expression then filter_expression else none }

/-- `ise_get_network_devices` (lines 207-228): endpoint path and query
parameters of the upstream GET. -/
def ise_get_network_devices (filter_expression : Option String)
    (page size : Int) : String × IseParams :=
  ("networkdevice", isePageParams filter_expression page size)

/-- `ise_get_endpoints` (lines 322-343): endpoint path and query
parameters of the upstream GET. -/
def ise_get_endpoints (filter_expression : Option String)
    (page size : Int) : String × IseParams :=
  ("endpoint", isePageParams filter_expression page size)

/-! ## `resolve_issues` (catc_mcp_server.py lines 389-471) -/

/-- The error dict returned for an empty issue list (lines 412-416). -/
def emptyIssueIdsDict : Json :=
  .obj [("error", .str "No issue IDs provided"),
    ("message", .str "Please provide at least one issue ID to resolve")]

/-- The error dict of the two `except` branches (lines 449-471). -/
def resolveErrorDict (message : String) (issue_ids : List String) : Json :=
  .obj [("status", .str "error"), ("message", .str message),
    ("issue_ids", .arr (issue_ids.map Json.str))]

/-- The success dict (lines 438-448). -/
def resolveSuccessDict (ns nf : Nat) (successful failed result : Json) : Json :=
  .obj [("status", .str "success"),
    ("message", .str ("Resolved " ++ toString ns ++ " issue(s), " ++
      toString nf ++ " failed")),
    ("successful_issue_ids", successful),
    ("failed_issue_ids", failed),
    ("response", result)]

/-- Unpacking of a successful resolve response (lines 436-448): Python
`result.get(...)` / `len(...)` raise on unexpectedly-shaped values, landing
in the generic `except` branch whose message renders the exception. -/
def resolveUnpack (body : Json) (issue_ids : List String) : Json :=
  match body with
  | .obj fields =>
    match (Json.lookupField fields "response").getD (.obj []) with
    | .obj responseFields =>
      let successful := (Json.lookupField responseFields "successfulIssueIds").getD (.arr [])
      let failed := (Json.lookupField responseFields "failureIssueIds").getD (.arr [])
      match pyLen successful, pyLen failed with
      | some ns, some nf => resolveSuccessDict ns nf successful failed body
      | _, _ => resolveErrorDict "Unexpected error: TypeError" issue_ids
    | _ => resolveErrorDict "Unexpected error: AttributeError" issue_ids
  | _ => resolveErrorDict "Unexpected error: AttributeError" issue_ids

/-- `resolve_issues`: an empty id list is rejected before the URL is
built, before headers are requested and before any HTTP attempt (lines
412-416).  Otherwise headers are built (outside the `try`: an
authentication failure there propagates as the raised exception), the
resolve POST is issued with the single 401-retry of the shared pattern,
and every exception inside the `try` is converted into an error dict:
`raise_for_status` errors render the response body (lines 449-456), other
exceptions the `Unexpected error` message (lines 464-471). -/
def resolve_issues (up : Upstream) (st : ClientState) (tr : Trace)
    (issue_ids : List String) : Except CallError Json × ClientState × Trace :=
  if issue_ids.isEmpty then (.ok emptyIssueIdsDict, st, tr)
  else
    match CatalystCenterAPI.get_headers up st tr with
    | (false, st1, tr1) => (.error .authError, st1, tr1)
    | (true, st1, tr1) =>
      match CatalystCenterAPI.doRequest up tr1 with
      | (.error e, tr2) =>
        (.ok (resolveErrorDict ("Unexpected error: " ++ e) issue_ids), st1, tr2)
      | (.ok r1, tr2) =>
        if r1.status == 401 then
          match CatalystCenterAPI.authenticate up st1 tr2 with
          | (false, st2, tr3) =>
            -- replay skipped; `raise_for_status` on the 401 response
            (.ok (resolveErrorDict
              ("Failed to resolve issues: " ++ pyStr r1.body) issue_ids), st2, tr3)
          | (true, st2, tr3) =>
            match CatalystCenterAPI.get_headers up st2 tr3 with
            | (false, st3, tr4) =>
              (.ok (resolveErrorDict
                "Unexpected error: Failed to authenticate with Catalyst Center"
                issue_ids), st3, tr4)
            | (true, st3, tr4) =>
              match CatalystCenterAPI.doRequest up tr4 with
              | (.error e, tr5) =>
                (.ok (resolveErrorDict ("Unexpected error: " ++ e) issue_ids),
                  st3, tr5)
              | (.ok r2, tr5) =>
                match CatalystCenterAPI.raiseForStatus r2 with
                | .error _ =>
                  (.ok (resolveErrorDict
                    ("Failed to resolve issues: " ++ pyStr r2.body) issue_ids),
                    st3, tr5)
                | .ok body => (.ok (resolveUnpack body issue_ids), st3, tr5)
        else
          match CatalystCenterAPI.raiseForStatus r1 with
          | .error _ =>
            (.ok (resolveErrorDict
              ("Failed to resolve issues: " ++ pyStr r1.body) issue_ids), st1, tr2)
          | .ok body => (.ok (resolveUnpack body issue_ids), st1, tr2)

/-! ## Auxiliary predicates and concrete oracles used in the statements -/

/-- `p` occurs as a contiguous substring of `s`. -/
def OccursIn (p s : List Char) : Prop := ∃ a b, s = a ++ p ++ b

/-- Whether an `Except` computation succeeded. -/
def isOkB {ε α : Type} : Except ε α → Bool
  | .ok _ => true
  | .error _ => false

/-- A successful authentication response carrying a token. -/
def authOkResp : HttpResponse := ⟨200, .obj [("Token", .str "demo-token")], ""⟩

/-- A bare 401 response. -/
def resp401 : HttpResponse := ⟨401, .str "unauthorized", "Unauthorized"⟩

/-- A 200 data response with the body used in the spec example. -/
def respOkBody : HttpResponse :=
  ⟨200, .obj [("response", .arr [.obj [("id", .str "1")]])], ""⟩

/-- Upstream whose every endpoint (auth included) answers 401. -/
def upAlways401 : Upstream := ⟨fun _ => .ok resp401, fun _ => .ok resp401⟩

/-- Upstream whose auth endpoint works but whose data endpoint always
answers 401. -/
def upData401 : Upstream := ⟨fun _ => .ok authOkResp, fun _ => .ok resp401⟩

/-- Upstream whose data endpoint answers 401 once, then 200. -/
def upColdRetry : Upstream :=
  ⟨fun _ => .ok authOkResp,
    fun n => if n == 0 then .ok resp401 else .ok respOkBody⟩

/-- Fully healthy upstream. -/
def upAllOk : Upstream := ⟨fun _ => .ok authOkResp, fun _ => .ok respOkBody⟩

/-- Upstream whose auth POST raises a transport exception whose message
embeds the configured password. -/
def upAuthExn : Upstream :=
  ⟨fun _ => .error "Authentication error for admin:hunter2@10.0.0.1",
    fun _ => .ok respOkBody⟩

/-- A client state holding a (truthy) cached token. -/
def cachedState : ClientState := ⟨some (.str "cached-token")⟩

/-- A Meraki networks-endpoint URL. -/
def merakiNetworksUrl : String :=
  "https://api.meraki.com/api/v1/organizations/123/networks"

/-- A well-formed 200 networks response in which `enrollmentString` is
null. -/
def merakiNullResp : HttpResponse :=
  ⟨200, .arr [.obj [("enrollmentString", .null), ("name", .str "branch-1")]], ""⟩

/-! ## Theorems -/

/-- C10: for every ISE paginated list tool (here the two representatives
`ise_get_network_devices` and `ise_get_endpoints`, which build their
parameter dict with the shared literal `{"page": page, "size": min(size,
100)}`) and every caller-supplied `size`, the `size` query parameter sent
upstream is `min size 100` — hence never exceeds 100 — while the
caller-supplied `page` is passed through unmodified. -/
theorem ise_size_clamped_page_passthrough :
    ∀ (f : Option String) (page size : Int),
      (ise_get_network_devices f page size).2.size = min size 100 ∧
      (ise_get_network_devices f page size).2.size ≤ 100 ∧
      (ise_get_network_devices f page size).2.page = page ∧
      (ise_get_endpoints f page size).2.size = min size 100 ∧
      (ise_get_endpoints f page size).2.size ≤ 100 ∧
      (ise_get_endpoints f page size).2.page = page := by
  intro f page size
  refine ⟨rfl, ?_, rfl, rfl, ?_, rfl⟩ <;>
    simp [ise_get_network_devices, ise_get_endpoints, isePageParams]

/-- C7: for each of the six adapters, startup succeeds exactly when every
required environment variable (base URL / host, credential pair or token)
is present and non-empty — a missing one aborts startup with the
adapter's message (shown at the empty environment) before any
network-capable object is constructed, and no silent default is
substituted for a required value. -/
theorem startup_fails_fast_on_missing_env :
    ∀ env : Env,
      ((isOkB (catcStartup env)) =
        (optStrTruthy (env "CATC_URL") && optStrTruthy (env "CATC_USERNAME") &&
          optStrTruthy (env "CATC_PASSWORD"))) ∧
      ((isOkB (iseStartup env)) =
        (optStrTruthy (env "ISE_HOST") && optStrTruthy (env "ISE_USERNAME") &&
          optStrTruthy (env "ISE_PASSWORD"))) ∧
      ((isOkB (iosxeStartup env)) =
        (optStrTruthy (env "IOS_XE_USERNAME") &&
          optStrTruthy (env "IOS_XE_PASSWORD"))) ∧
      ((isOkB (splunkStartup env)) =
        (optStrTruthy (env "SPLUNK_HOST") &&
          (optStrTruthy (env "SPLUNK_API_KEY") &&
            !(((env "SPLUNK_API_KEY").getD "").startsWith "your_actual_")))) ∧
      ((isOkB (merakiStartup env)) =
        (optStrTruthy (env "MERAKI_KEY") &&
          !(((env "MERAKI_KEY").getD "").startsWith "your_actual_"))) ∧
      ((isOkB (teStartup env)) = optStrTruthy (env "TE_TOKEN")) ∧
      (catcStartup (fun _ => none) =
        .error "CATC_URL environment variable is required") ∧
      (iseStartup (fun _ => none) =
        .error "ISE_HOST, ISE_USERNAME, and ISE_PASSWORD environment variables are required") ∧
      (iosxeStartup (fun _ => none) =
        .error "Missing required environment credentials") ∧
      (splunkStartup (fun _ => none) = .error "❌ SPLUNK_HOST not configured!") ∧
      (merakiStartup (fun _ => none) =
        .error "❌ MERAKI_KEY not configured properly!") ∧
      (teStartup (fun _ => none) =
        .error "TE_TOKEN environment variable is required") := by
  intro env
  refine ⟨?_, ?_, ?_, ?_, ?_, ?_, rfl, rfl, rfl, rfl, rfl, rfl⟩
  · cases h1 : optStrTruthy (env "CATC_URL") <;>
      cases h2 : optStrTruthy (env "CATC_USERNAME") <;>
      cases h3 : optStrTruthy (env "CATC_PASSWORD") <;>
      simp [catcStartup, isOkB, h1, h2, h3]
  · cases h1 : optStrTruthy (env "ISE_HOST") <;>
      cases h2 : optStrTruthy (env "ISE_USERNAME") <;>
      cases h3 : optStrTruthy (env "ISE_PASSWORD") <;>
      simp [iseStartup, isOkB, h1, h2, h3]
  · cases h1 : optStrTruthy (env "IOS_XE_USERNAME") <;>
      cases h2 : optStrTruthy (env "IOS_XE_PASSWORD") <;>
      simp [iosxeStartup, isOkB, h1, h2]
  · cases h1 : optStrTruthy (env "SPLUNK_HOST") <;>
      cases h2 : optStrTruthy (env "SPLUNK_API_KEY") <;>
      cases h3 : ((env "SPLUNK_API_KEY").getD "").startsWith "your_actual_" <;>
      simp [splunkStartup, isOkB, h1, h2, h3]
  · cases h1 : optStrTruthy (env "MERAKI_KEY") <;>
      cases h2 : ((env "MERAKI_KEY").getD "").startsWith "your_actual_" <;>
      simp [merakiStartup, isOkB, h1, h2]
  · cases h1 : optStrTruthy (env "TE_TOKEN") <;>
      simp [teStartup, isOkB, h1]

/-- C8: on the SSH command-execution paths (`show_command` and
`config_command`), the number of connection closes always equals the
number of successful connection acquisitions (no leak on any exit path),
at most one connection is ever acquired, and whenever a connection is
established (valid host, connect succeeds) it is closed exactly once —
regardless of whether the command succeeds or raises mid-command. -/
theorem ssh_connection_closed_exactly_once :
    ∀ (password : String) (dev : SshDevice) (command host : String)
      (commands : List String),
      (show_command password dev command host).closed =
        (show_command password dev command host).opened ∧
      (show_command password dev command host).opened ≤ 1 ∧
      (config_command password dev commands host).closed =
        (config_command password dev commands host).opened ∧
      (config_command password dev commands host).opened ≤ 1 ∧
      (host ≠ "" → (∃ u, dev.connectResult = .ok u) →
        (show_command password dev command host).closed = 1) ∧
      (host ≠ "" → commands ≠ [] → (∃ u, dev.connectResult = .ok u) →
        (config_command password dev commands host).closed = 1) := by
  intro password dev command host commands
  refine ⟨?_, ?_, ?_, ?_, ?_, ?_⟩
  · unfold show_command
    split
    · rfl
    · rcases h : dev.connectResult with e | u
      · rfl
      · rcases hc : dev.sendCommand command with e | o <;> rfl
  · unfold show_command
    split
    · simp
    · rcases h : dev.connectResult with e | u
      · simp
      · rcases hc : dev.sendCommand command with e | o <;> simp
  · unfold config_command
    split
    · rfl
    · split
      · rfl
      · rcases h : dev.connectResult with e | u
        · rfl
        · rcases hs : dev.sendConfigSet commands with e | o
          · rfl
          · rcases hc : dev.sendCommand "write memory" with e2 | o2 <;> rfl
  · unfold config_command
    split
    · simp
    · split
      · simp
      · rcases h : dev.connectResult with e | u
        · simp
        · rcases hs : dev.sendConfigSet commands with e | o
          · simp
          · rcases hc : dev.sendCommand "write memory" with e2 | o2 <;> simp
  · intro hhost hconn
    obtain ⟨u, hu⟩ := hconn
    unfold show_command
    rw [if_neg (by simpa using hhost), hu]
    rcases hc : dev.sendCommand command with e | o <;> rfl
  · intro hhost hcmds hconn
    obtain ⟨u, hu⟩ := hconn
    unfold config_command
    rw [if_neg (by simpa using hhost), if_neg (by simpa using hcmds), hu]
    rcases hs : dev.sendConfigSet commands with e | o
    · rfl
    · rcases hc : dev.sendCommand "write memory" with e2 | o2 <;> rfl

/-- C8 witness: a device whose command raises mid-command still has its
connection closed exactly once. -/
theorem ssh_connection_closed_exactly_once_witness :
    (show_command "pw"
      ⟨.ok (), fun _ => .error "timeout", fun _ => .error "timeout"⟩
      "show version" "10.0.0.1").closed = 1 ∧
    (config_command "pw"
      ⟨.ok (), fun _ => .error "timeout", fun _ => .error "timeout"⟩
      ["hostname r1"] "10.0.0.1").closed = 1 := by
  constructor
  · exact (ssh_connection_closed_exactly_once "pw"
      ⟨.ok (), fun _ => .error "timeout", fun _ => .error "timeout"⟩
      "show version" "10.0.0.1" ["hostname r1"]).2.2.2.2.1
      (by decide) ⟨(), rfl⟩
  · exact (ssh_connection_closed_exactly_once "pw"
      ⟨.ok (), fun _ => .error "timeout", fun _ => .error "timeout"⟩
      "show version" "10.0.0.1" ["hostname r1"]).2.2.2.2.2
      (by decide) (by decide) ⟨(), rfl⟩

/-- C9: structurally invalid parameters are rejected before any network
interaction: `resolve_issues` with an empty id list returns the
invalid-argument dict with the client state and trace untouched (no
authentication POST, no data request), and the SSH tools with a missing
host or an empty command list return the validation error without opening
a connection. -/
theorem invalid_arguments_rejected_before_network :
    ∀ (up : Upstream) (st : ClientState) (tr : Trace) (password : String)
      (dev : SshDevice) (command host : String) (commands : List String),
      (resolve_issues up st tr [] = (.ok emptyIssueIdsDict, st, tr)) ∧
      (host ≠ "" →
        config_command password dev [] host =
          ⟨"Error: commands must be a non-empty list", 0, 0⟩) ∧
      (show_command password dev command "" =
        ⟨"Error: host parameter is required", 0, 0⟩) ∧
      (config_command password dev commands "" =
        ⟨"Error: host parameter is required", 0, 0⟩) := by
  intro up st tr password dev command host commands
  refine ⟨rfl, ?_, rfl, rfl⟩
  intro hhost
  unfold config_command
  rw [if_neg (by simpa using hhost)]
  rfl

/-- C9 witness: concrete rejections. -/
theorem invalid_arguments_rejected_before_network_witness :
    resolve_issues upAllOk ⟨none⟩ Trace.init [] =
      (.ok emptyIssueIdsDict, ⟨none⟩, Trace.init) ∧
    config_command "pw" ⟨.ok (), fun _ => .ok "", fun _ => .ok ""⟩ [] "10.0.0.1" =
      ⟨"Error: commands must be a non-empty list", 0, 0⟩ := by
  constructor
  · exact (invalid_arguments_rejected_before_network upAllOk ⟨none⟩ Trace.init
      "pw" ⟨.ok (), fun _ => .ok "", fun _ => .ok ""⟩ "" "10.0.0.1" []).1
  · exact (invalid_arguments_rejected_before_network upAllOk ⟨none⟩ Trace.init
      "pw" ⟨.ok (), fun _ => .ok "", fun _ => .ok ""⟩ "" "10.0.0.1" []).2.1
      (by decide)

/-! ### Helper lemmas about the Catalyst Center client -/

namespace CatalystCenterAPI

/-- A 200 authentication response with a dict body stores the looked-up
token and reports success. -/
lemma authenticate_eq_success (up : Upstream) (st : ClientState) (tr : Trace)
    (r : HttpResponse) (fields : List (String × Json))
    (h : up.authResp tr.authCount = .ok r) (hs : r.status = 200)
    (hb : r.body = .obj fields) :
    authenticate up st tr =
      (true, ⟨Json.lookupField fields "Token"⟩,
        ⟨tr.authCount + 1, tr.reqCount, tr.logs⟩) := by
  unfold authenticate
  rw [h]
  obtain ⟨status, body, text⟩ := r
  simp only at hs hb
  subst hs
  subst hb
  rfl

/-- `authenticate` advances the auth counter by one and leaves the request
counter alone, on every branch. -/
lemma authenticate_trace (up : Upstream) (st : ClientState) (tr : Trace) :
    (authenticate up st tr).2.2.authCount = tr.authCount + 1 ∧
    (authenticate up st tr).2.2.reqCount = tr.reqCount := by
  unfold authenticate
  rcases h : up.authResp tr.authCount with e | r
  · exact ⟨rfl, rfl⟩
  · obtain ⟨status, body, text⟩ := r
    cases hs : status == 200
    · simp [hs]
    · cases body <;> simp [hs]

/-- A failed `authenticate` leaves the client state (hence the token)
unchanged. -/
lemma authenticate_fail_state (up : Upstream) (st : ClientState) (tr : Trace)
    (h : (authenticate up st tr).1 = false) :
    (authenticate up st tr).2.1 = st := by
  revert h
  unfold authenticate
  rcases h : up.authResp tr.authCount with e | r
  · intro _; rfl
  · obtain ⟨status, body, text⟩ := r
    cases hs : status == 200
    · intro _; simp [hs]
    · cases body <;> simp [hs]

/-- A successful `authenticate` came from a 200 dict response and stored
exactly the looked-up `Token` field. -/
lemma authenticate_success_token (up : Upstream) (st : ClientState) (tr : Trace)
    (h : (authenticate up st tr).1 = true) :
    ∃ r fields, up.authResp tr.authCount = .ok r ∧ r.status = 200 ∧
      r.body = .obj fields ∧
      (authenticate up st tr).2.1.token = Json.lookupField fields "Token" := by
  revert h
  unfold authenticate
  rcases h : up.authResp tr.authCount with e | r
  · intro hc; exact absurd hc (by simp)
  · obtain ⟨status, body, text⟩ := r
    cases hs : status == 200
    · intro hc; exact absurd hc (by simp [hs])
    · have hst : status = 200 := by simpa using hs
      cases body with
      | obj fields =>
        intro _
        exact ⟨⟨status, .obj fields, text⟩, fields, rfl, hst, rfl, by simp [hs]⟩
      | null => intro hc; exact absurd hc (by simp [hs])
      | bool b => intro hc; exact absurd hc (by simp [hs])
      | num n => intro hc; exact absurd hc (by simp [hs])
      | str s => intro hc; exact absurd hc (by simp [hs])
      | arr items => intro hc; exact absurd hc (by simp [hs])

/-- `_get_headers` performs at most one authentication POST and never
touches the request counter. -/
lemma get_headers_trace (up : Upstream) (st : ClientState) (tr : Trace) :
    (get_headers up st tr).2.2.authCount ≤ tr.authCount + 1 ∧
    (get_headers up st tr).2.2.reqCount = tr.reqCount := by
  unfold get_headers
  cases htok : optTruthy st.token
  · exact ⟨(authenticate_trace up st tr).1.le, (authenticate_trace up st tr).2⟩
  · exact ⟨Nat.le_succ _, rfl⟩

/-- With a truthy cached token and a non-401 response, a call is a single
request, no authentication, headers from the cached token, state and logs
untouched. -/
lemma request_with_cached_token (up : Upstream) (st : ClientState) (tr : Trace)
    (r : HttpResponse) (htok : optTruthy st.token = true)
    (hreq : up.reqResp tr.reqCount = .ok r) (h401 : r.status ≠ 401) :
    request up st tr =
      (raiseForStatus r, st, ⟨tr.authCount, tr.reqCount + 1, tr.logs⟩) := by
  unfold request get_headers doRequest
  rw [htok]
  simp only [reduceIte]
  rw [hreq]
  simp only []
  rw [if_neg (by simpa using h401)]

end CatalystCenterAPI

/-- C3: `authenticate()` on an HTTP 200 dict response stores the `Token`
field of the body in the session — overwriting whatever token was cached
before — and reports success; on any other status or on a raised transport
exception it reports failure as a boolean (the embedding is a total
function: no exception escapes) and leaves the client state, hence the
token field, unchanged — in particular a previously unset token stays
unset. -/
theorem authenticate_token_handling :
    ∀ (up : Upstream) (st : ClientState) (tr : Trace),
      (∀ r fields, up.authResp tr.authCount = .ok r → r.status = 200 →
        r.body = .obj fields →
        CatalystCenterAPI.authenticate up st tr =
          (true, ⟨Json.lookupField fields "Token"⟩,
            ⟨tr.authCount + 1, tr.reqCount, tr.logs⟩)) ∧
      (∀ r, up.authResp tr.authCount = .ok r → r.status ≠ 200 →
        (CatalystCenterAPI.authenticate up st tr).1 = false ∧
        (CatalystCenterAPI.authenticate up st tr).2.1 = st) ∧
      (∀ e, up.authResp tr.authCount = .error e →
        (CatalystCenterAPI.authenticate up st tr).1 = false ∧
        (CatalystCenterAPI.authenticate up st tr).2.1 = st) := by
  intro up st tr
  refine ⟨?_, ?_, ?_⟩
  · intro r fields h hs hb
    exact CatalystCenterAPI.authenticate_eq_success up st tr r fields h hs hb
  · intro r h hs
    have h1 : (CatalystCenterAPI.authenticate up st tr).1 = false := by
      unfold CatalystCenterAPI.authenticate
      rw [h]
      obtain ⟨status, body, text⟩ := r
      simp only at hs
      cases body <;> simp [Nat.ne_of_lt, hs]
    exact ⟨h1, CatalystCenterAPI.authenticate_fail_state up st tr h1⟩
  · intro e h
    have h1 : (CatalystCenterAPI.authenticate up st tr).1 = false := by
      unfold CatalystCenterAPI.authenticate
      rw [h]
    exact ⟨h1, CatalystCenterAPI.authenticate_fail_state up st tr h1⟩

/-- C3 witness: a 200 response stores the token (overwriting the cached
one); a 401 at the auth endpoint reports failure leaving the cached state
untouched. -/
theorem authenticate_token_handling_witness :
    CatalystCenterAPI.authenticate upAllOk cachedState Trace.init =
      (true, ⟨some (Json.str "demo-token")⟩, ⟨1, 0, []⟩) ∧
    (CatalystCenterAPI.authenticate upAlways401 cachedState Trace.init).1 = false ∧
    (CatalystCenterAPI.authenticate upAlways401 cachedState Trace.init).2.1 =
      cachedState := by
  refine ⟨?_, ?_, ?_⟩
  · exact (authenticate_token_handling upAllOk cachedState Trace.init).1
      authOkResp [("Token", Json.str "demo-token")] rfl rfl rfl
  · exact ((authenticate_token_handling upAlways401 cachedState Trace.init).2.1
      resp401 rfl (by decide)).1
  · exact ((authenticate_token_handling upAlways401 cachedState Trace.init).2.1
      resp401 rfl (by decide)).2

/-- C4: with a (truthy) cached token and an upstream that accepts it (any
non-401 answer to the request), a GET or POST call issues exactly the one
request and no authentication POST: the headers come from the cached
token, the client state and auth counter are unchanged. -/
theorem cached_token_no_reauthentication :
    ∀ (up : Upstream) (st : ClientState) (tr : Trace) (r : HttpResponse),
      optTruthy st.token = true →
      up.reqResp tr.reqCount = .ok r →
      r.status ≠ 401 →
      CatalystCenterAPI.get up st tr =
        (CatalystCenterAPI.raiseForStatus r, st,
          ⟨tr.authCount, tr.reqCount + 1, tr.logs⟩) ∧
      CatalystCenterAPI.post up st tr =
        (CatalystCenterAPI.raiseForStatus r, st,
          ⟨tr.authCount, tr.reqCount + 1, tr.logs⟩) := by
  intro up st tr r htok hreq h401
  have h := CatalystCenterAPI.request_with_cached_token up st tr r htok hreq h401
  exact ⟨h, h⟩

/-- C4 witness: a second call with the cached token against a healthy
upstream returns the body with no authentication POST. -/
theorem cached_token_no_reauthentication_witness :
    CatalystCenterAPI.get upAllOk cachedState Trace.init =
      (.ok respOkBody.body, cachedState, ⟨0, 1, []⟩) := by
  exact (cached_token_no_reauthentication upAllOk cachedState Trace.init
    respOkBody rfl rfl (by decide)).1

/-- C5 (amended): pass-through fidelity holds on the Catalyst Center
client path — a 200 JSON body reaches the caller structurally identical —
and on the Meraki client for responses that are not 200 or whose URL is
not a networks / devices / firmware-upgrades endpoint; the Meraki
response-fixing path itself, however, rewrites such responses (see the
counterexample), so pass-through does not hold on every adapter response
path. -/
theorem pass_through_fidelity :
    (∀ (up : Upstream) (st : ClientState) (tr : Trace) (r : HttpResponse),
      optTruthy st.token = true →
      up.reqResp tr.reqCount = .ok r →
      r.status = 200 →
      (CatalystCenterAPI.get up st tr).1 = .ok r.body) ∧
    (∀ (url : String) (resp : HttpResponse), resp.status ≠ 200 →
      MerakiResponseFixingClient.request url resp = resp) ∧
    (∀ (url : String) (resp : HttpResponse),
      (strContains url "/networks" || strContains url "/devices" ||
        strContains url "/firmware/upgrades") = false →
      MerakiResponseFixingClient.request url resp = resp) := by
  refine ⟨?_, ?_, ?_⟩
  · intro up st tr r htok hreq hs
    have h := CatalystCenterAPI.request_with_cached_token up st tr r htok hreq
      (by omega)
    have h2 : CatalystCenterAPI.raiseForStatus r = .ok r.body := by
      unfold CatalystCenterAPI.raiseForStatus
      rw [if_neg (by omega)]
    calc (CatalystCenterAPI.get up st tr).1
        = (CatalystCenterAPI.raiseForStatus r, st,
            (⟨tr.authCount, tr.reqCount + 1, tr.logs⟩ : Trace)).1 := by rw [show CatalystCenterAPI.get up st tr = _ from h]
      _ = .ok r.body := h2
  · intro url resp hs
    unfold MerakiResponseFixingClient.request
    rw [if_neg]
    simp [hs]
  · intro url resp hurl
    unfold MerakiResponseFixingClient.request
    rw [if_neg]
    simp [hurl]

/-- C5 witness: at concrete inputs, the Catalyst Center path returns the
spec's example body unchanged, and a Meraki 404 passes through. -/
theorem pass_through_fidelity_witness :
    (CatalystCenterAPI.get upAllOk cachedState Trace.init).1 =
      .ok (Json.obj [("response", .arr [.obj [("id", .str "1")]])]) ∧
    MerakiResponseFixingClient.request merakiNetworksUrl ⟨404, .null, ""⟩ =
      ⟨404, .null, ""⟩ := by
  constructor
  · exact pass_through_fidelity.1 upAllOk cachedState Trace.init respOkBody
      rfl rfl rfl
  · exact pass_through_fidelity.2.1 merakiNetworksUrl ⟨404, .null, ""⟩ (by decide)

/-- C5 counterexample: the Meraki response-fixing client mutates a
well-formed 200 networks response — the null `enrollmentString` comes back
as `""` — so the value returned to the caller is not structurally
identical to the upstream body on every adapter response path. -/
theorem pass_through_fidelity_counterexample :
    (MerakiResponseFixingClient.request merakiNetworksUrl merakiNullResp).body =
      .arr [.obj [("enrollmentString", .str ""), ("name", .str "branch-1")]] ∧
    (MerakiResponseFixingClient.request merakiNetworksUrl merakiNullResp).body ≠
      merakiNullResp.body := by
  constructor
  · rfl
  · intro h
    have h2 : (Json.arr [.obj [("enrollmentString", .str ""), ("name", .str "branch-1")]]) =
        .arr [.obj [("enrollmentString", .null), ("name", .str "branch-1")]] := h
    simp at h2

namespace CatalystCenterAPI

/-- Unconditional retry bounds of `request`: at most two data attempts; at
most three authentication POSTs, and at most two of them whenever every
successful authentication stores a truthy token. -/
lemma request_trace_bounds (up : Upstream) (st : ClientState) (tr : Trace) :
    (request up st tr).2.2.reqCount ≤ tr.reqCount + 2 ∧
    (request up st tr).2.2.authCount ≤ tr.authCount + 3 ∧
    ((∀ n r fields, up.authResp n = .ok r → r.status = 200 →
        r.body = .obj fields →
        optTruthy (Json.lookupField fields "Token") = true) →
      (request up st tr).2.2.authCount ≤ tr.authCount + 2) := by
  unfold request
  rcases hgh : get_headers up st tr with ⟨b1, st1, tr1⟩
  have hh := get_headers_trace up st tr
  rw [hgh] at hh
  simp only at hh
  obtain ⟨hh1, hh2⟩ := hh
  cases b1
  · dsimp only
    exact ⟨by omega, by omega, fun _ => by omega⟩
  · dsimp only [doRequest]
    rcases hr1 : up.reqResp tr1.reqCount with e | r1
    · dsimp only
      exact ⟨by omega, by omega, fun _ => by omega⟩
    · dsimp only
      cases h401 : r1.status == 401
      · rw [if_neg (by simp)]
        dsimp only
        exact ⟨by omega, by omega, fun _ => by omega⟩
      · rw [if_pos rfl]
        rcases hau : authenticate up st1 ⟨tr1.authCount, tr1.reqCount + 1, tr1.logs⟩
          with ⟨b2, st2, tr3⟩
        have ha := authenticate_trace up st1 ⟨tr1.authCount, tr1.reqCount + 1, tr1.logs⟩
        rw [hau] at ha
        simp only at ha
        obtain ⟨ha1, ha2⟩ := ha
        cases b2
        · dsimp only
          exact ⟨by omega, by omega, fun _ => by omega⟩
        · dsimp only
          rcases hgh2 : get_headers up st2 tr3 with ⟨b3, st3, tr4⟩
          have hh' := get_headers_trace up st2 tr3
          rw [hgh2] at hh'
          simp only at hh'
          obtain ⟨hh'1, hh'2⟩ := hh'
          have htokcase : (∀ n r fields, up.authResp n = .ok r →
              r.status = 200 → r.body = .obj fields →
              optTruthy (Json.lookupField fields "Token") = true) →
              b3 = true ∧ tr4 = tr3 := by
            intro H
            obtain ⟨r, fields, hr, hs, hb, htok⟩ :=
              authenticate_success_token up st1
                ⟨tr1.authCount, tr1.reqCount + 1, tr1.logs⟩ (by rw [hau])
            rw [hau] at htok
            have htok2 : optTruthy st2.token = true := by
              simp only at htok
              rw [htok]
              exact H _ r fields hr hs hb
            have heq : get_headers up st2 tr3 = (true, st2, tr3) := by
              unfold get_headers
              rw [htok2]
              rfl
            rw [hgh2] at heq
            injection heq with e1 e2
            injection e2 with e2 e3
            exact ⟨e1, e3⟩
          cases b3
          · dsimp only
            refine ⟨by omega, by omega, fun H => ?_⟩
            obtain ⟨hb3, _⟩ := htokcase H
            cases hb3
          · dsimp only [doRequest]
            rcases hr2 : up.reqResp tr4.reqCount with e | r2
            · dsimp only
              refine ⟨by omega, by omega, fun H => ?_⟩
              obtain ⟨_, htr4⟩ := htokcase H
              have he : tr4.authCount = tr3.authCount := by rw [htr4]
              omega
            · dsimp only
              refine ⟨by omega, by omega, fun H => ?_⟩
              obtain ⟨_, htr4⟩ := htokcase H
              have he : tr4.authCount = tr3.authCount := by rw [htr4]
              omega

end CatalystCenterAPI

namespace CatalystCenterAPI

/-- Behaviour of `request` against an upstream whose data endpoint always
answers 401 while authentication succeeds with a truthy token: the 401 is
replayed exactly once and surfaces as the `raise_for_status` HTTP error. -/
lemma request_always401_run (up : Upstream)
    (HA : ∀ n, ∃ r fields, up.authResp n = .ok r ∧ r.status = 200 ∧
      r.body = .obj fields ∧ optTruthy (Json.lookupField fields "Token") = true)
    (HR : ∀ n, ∃ r, up.reqResp n = .ok r ∧ r.status = 401)
    (st : ClientState) (tr : Trace) :
    (request up st tr).1 = .error (.httpError 401) ∧
    (request up st tr).2.2.reqCount = tr.reqCount + 2 ∧
    (request up st tr).2.2.authCount =
      tr.authCount + (if optTruthy st.token then 1 else 2) := by
  unfold request
  cases htok : optTruthy st.token
  · -- cold start: `_get_headers` authenticates first
    obtain ⟨ra, fa, hra, hsa, hba, hta⟩ := HA tr.authCount
    have hghe : get_headers up st tr =
        (true, ⟨Json.lookupField fa "Token"⟩,
          ⟨tr.authCount + 1, tr.reqCount, tr.logs⟩) := by
      unfold get_headers
      rw [htok]
      exact authenticate_eq_success up st tr ra fa hra hsa hba
    rw [hghe]
    dsimp only [doRequest]
    obtain ⟨r1, hr1, hs1⟩ := HR tr.reqCount
    rw [hr1]
    dsimp only
    rw [if_pos (by simp [hs1])]
    obtain ⟨rb, fb, hrb, hsb, hbb, htb⟩ := HA (tr.authCount + 1)
    have hau : authenticate up ⟨Json.lookupField fa "Token"⟩
        ⟨tr.authCount + 1, tr.reqCount + 1, tr.logs⟩ =
        (true, ⟨Json.lookupField fb "Token"⟩,
          ⟨tr.authCount + 1 + 1, tr.reqCount + 1, tr.logs⟩) :=
      authenticate_eq_success up _ _ rb fb hrb hsb hbb
    rw [hau]
    dsimp only
    have hgh2 : get_headers up ⟨Json.lookupField fb "Token"⟩
        ⟨tr.authCount + 1 + 1, tr.reqCount + 1, tr.logs⟩ =
        (true, ⟨Json.lookupField fb "Token"⟩,
          ⟨tr.authCount + 1 + 1, tr.reqCount + 1, tr.logs⟩) := by
      unfold get_headers
      rw [show optTruthy (ClientState.mk (Json.lookupField fb "Token")).token = true
        from htb]
      rfl
    rw [hgh2]
    dsimp only [doRequest]
    obtain ⟨r2, hr2, hs2⟩ := HR (tr.reqCount + 1)
    rw [hr2]
    dsimp only
    refine ⟨?_, by omega, by rw [if_neg (by simp)]⟩
    unfold raiseForStatus
    rw [hs2, if_pos (by omega)]
  · -- warm start: headers from the cached token
    have hghe : get_headers up st tr = (true, st, tr) := by
      unfold get_headers
      rw [htok]
      rfl
    rw [hghe]
    dsimp only [doRequest]
    obtain ⟨r1, hr1, hs1⟩ := HR tr.reqCount
    rw [hr1]
    dsimp only
    rw [if_pos (by simp [hs1])]
    obtain ⟨rb, fb, hrb, hsb, hbb, htb⟩ := HA tr.authCount
    have hau : authenticate up st ⟨tr.authCount, tr.reqCount + 1, tr.logs⟩ =
        (true, ⟨Json.lookupField fb "Token"⟩,
          ⟨tr.authCount + 1, tr.reqCount + 1, tr.logs⟩) :=
      authenticate_eq_success up _ _ rb fb hrb hsb hbb
    rw [hau]
    dsimp only
    have hgh2 : get_headers up ⟨Json.lookupField fb "Token"⟩
        ⟨tr.authCount + 1, tr.reqCount + 1, tr.logs⟩ =
        (true, ⟨Json.lookupField fb "Token"⟩,
          ⟨tr.authCount + 1, tr.reqCount + 1, tr.logs⟩) := by
      unfold get_headers
      rw [show optTruthy (ClientState.mk (Json.lookupField fb "Token")).token = true
        from htb]
      rfl
    rw [hgh2]
    dsimp only [doRequest]
    obtain ⟨r2, hr2, hs2⟩ := HR (tr.reqCount + 1)
    rw [hr2]
    dsimp only
    refine ⟨?_, by omega, by rw [if_pos rfl]⟩
    unfold raiseForStatus
    rw [hs2, if_pos (by omega)]

end CatalystCenterAPI

/-- C1 (amended): against an upstream whose data endpoint always returns
HTTP 401 while re-authentication succeeds (storing a truthy token),
exactly two HTTP request attempts are made — the original plus one replay
after one re-authentication (two when starting without a cached token:
the initial one plus the post-401 one) — and the surfaced error is the
HTTP 401 status error raised by `raise_for_status`, not an
`AuthenticationError`; in addition, for every upstream whatsoever a call
issues at most two request attempts, so the client never loops beyond one
re-authentication + replay cycle. -/
theorem always_401_bounded_retry_http_error :
    (∀ (up : Upstream),
      (∀ n, ∃ r fields, up.authResp n = .ok r ∧ r.status = 200 ∧
        r.body = .obj fields ∧
        optTruthy (Json.lookupField fields "Token") = true) →
      (∀ n, ∃ r, up.reqResp n = .ok r ∧ r.status = 401) →
      ∀ (st : ClientState) (tr : Trace),
        (CatalystCenterAPI.request up st tr).1 = .error (.httpError 401) ∧
        (CatalystCenterAPI.request up st tr).2.2.reqCount = tr.reqCount + 2 ∧
        (CatalystCenterAPI.request up st tr).2.2.authCount =
          tr.authCount + (if optTruthy st.token then 1 else 2)) ∧
    (∀ (up : Upstream) (st : ClientState) (tr : Trace),
      (CatalystCenterAPI.request up st tr).2.2.reqCount ≤ tr.reqCount + 2) := by
  constructor
  · intro up HA HR st tr
    exact CatalystCenterAPI.request_always401_run up HA HR st tr
  · intro up st tr
    exact (CatalystCenterAPI.request_trace_bounds up st tr).1

/-- C1 witness: the concrete always-401 upstream with a cached token makes
exactly the original attempt plus one replay and raises the 401 HTTP
error. -/
theorem always_401_bounded_retry_http_error_witness :
    (CatalystCenterAPI.request upData401 cachedState Trace.init).1 =
      .error (.httpError 401) ∧
    (CatalystCenterAPI.request upData401 cachedState Trace.init).2.2.reqCount = 2 ∧
    (CatalystCenterAPI.request upData401 cachedState Trace.init).2.2.authCount = 1 := by
  have h := always_401_bounded_retry_http_error.1 upData401
    (fun _ => ⟨authOkResp, [("Token", Json.str "demo-token")], rfl, rfl, rfl, rfl⟩)
    (fun _ => ⟨resp401, rfl, rfl⟩)
    cachedState Trace.init
  exact ⟨h.1, h.2.1, h.2.2⟩

/-- C1 counterexample: for the upstream whose data endpoint always
returns 401 (authentication succeeding, so that the one replay actually
happens), the GET call makes its two attempts and then raises the
`requests` HTTP-status error carrying the 401 — not the client's
`AuthenticationError` (the `Failed to authenticate` exception), contrary
to the claim's final clause. -/
theorem always_401_returns_http_error_not_auth_error :
    (CatalystCenterAPI.get upData401 cachedState Trace.init).1 =
      .error (.httpError 401) ∧
    (CatalystCenterAPI.get upData401 cachedState Trace.init).1 ≠
      .error .authError := by
  refine ⟨rfl, ?_⟩
  intro h
  have h2 : (Except.error (CallError.httpError 401) : Except CallError Json) =
      .error .authError := h
  injection h2 with h3
  cases h3

/-- C2 (amended): whenever every successful authentication stores a
truthy token (as any healthy Catalyst Center does), at most two — not
one — authentication attempts occur per logical request, the second one
caused by the 401-retry branch; the request itself is attempted at most
twice.  The cold-start case of the original claim is exactly where the
second attempt happens (see the counterexample). -/
theorem at_most_two_authentications_per_request :
    ∀ (up : Upstream) (st : ClientState) (tr : Trace),
      (∀ n r fields, up.authResp n = .ok r → r.status = 200 →
        r.body = .obj fields →
        optTruthy (Json.lookupField fields "Token") = true) →
      (CatalystCenterAPI.request up st tr).2.2.authCount ≤ tr.authCount + 2 ∧
      (CatalystCenterAPI.request up st tr).2.2.reqCount ≤ tr.reqCount + 2 := by
  intro up st tr H
  exact ⟨(CatalystCenterAPI.request_trace_bounds up st tr).2.2 H,
    (CatalystCenterAPI.request_trace_bounds up st tr).1⟩

/-- C2 witness: the bound applied to the healthy concrete upstream. -/
theorem at_most_two_authentications_per_request_witness :
    (CatalystCenterAPI.request upAllOk ⟨none⟩ Trace.init).2.2.authCount ≤ 2 ∧
    (CatalystCenterAPI.request upAllOk ⟨none⟩ Trace.init).2.2.reqCount ≤ 2 := by
  have h := at_most_two_authentications_per_request upAllOk ⟨none⟩ Trace.init
    (fun n r fields h1 h2 h3 => by
      have hr : authOkResp = r := by
        have := h1
        rw [show upAllOk.authResp n = .ok authOkResp from rfl] at this
        injection this
      subst hr
      have hf : [("Token", Json.str "demo-token")] = fields := by
        have hb : Json.obj [("Token", Json.str "demo-token")] = .obj fields := h3
        injection hb
      subst hf
      rfl)
  exact h

/-- C2 counterexample: a cold start whose first attempt draws a 401 — the
case the claim explicitly includes — performs two authentication POSTs in
one successful logical request, refuting "at most one authentication
attempt". -/
theorem cold_start_performs_two_authentications :
    (CatalystCenterAPI.get upColdRetry ⟨none⟩ Trace.init).2.2.authCount = 2 ∧
    (CatalystCenterAPI.get upColdRetry ⟨none⟩ Trace.init).1 =
      .ok (Json.obj [("response", .arr [.obj [("id", .str "1")]])]) := by
  exact ⟨rfl, rfl⟩

/-! ### Substring and replacement lemmas for credential redaction -/

/-- The boolean substring test agrees with `OccursIn`. -/
theorem isSubstringL_iff (p : List Char) :
    ∀ s, isSubstringL p s = true ↔ OccursIn p s := by
  intro s
  induction s with
  | nil =>
    constructor
    · intro h
      have hp : p = [] := by simpa [isSubstringL] using h
      exact ⟨[], [], by simp [hp]⟩
    · rintro ⟨a, b, h⟩
      have h' := h.symm
      rw [List.append_eq_nil] at h'
      obtain ⟨h1, _⟩ := h'
      rw [List.append_eq_nil] at h1
      simp [isSubstringL, h1.2]
  | cons c t ih =>
    rw [show isSubstringL p (c :: t) = (p.isPrefixOf (c :: t) || isSubstringL p t)
      from rfl]
    rw [Bool.or_eq_true, ih]
    constructor
    · rintro (hpre | hocc)
      · obtain ⟨w, hw⟩ := List.isPrefixOf_iff_prefix.mp hpre
        exact ⟨[], w, by simp [hw]⟩
      · obtain ⟨a, b, hab⟩ := hocc
        exact ⟨c :: a, b, by simp [hab]⟩
    · rintro ⟨a, b, hab⟩
      cases a with
      | nil =>
        left
        apply List.isPrefixOf_iff_prefix.mpr
        exact ⟨b, by simpa using hab.symm⟩
      | cons a0 a' =>
        right
        simp only [List.cons_append, List.cons.injEq] at hab
        exact ⟨a', b, hab.2⟩

/-- A nonempty pattern occurring in `x ++ y` occurs in `y`, occurs in
`x`, or covers the last character of `x`. -/
theorem occursIn_append_cases (p : List Char) (hp : p ≠ []) :
    ∀ x y, OccursIn p (x ++ y) →
      OccursIn p y ∨ OccursIn p x ∨ ∃ x1 cl, x = x1 ++ [cl] ∧ cl ∈ p := by
  intro x
  induction x with
  | nil => intro y h; left; simpa using h
  | cons c x' ih =>
    intro y h
    obtain ⟨a, b, hab⟩ := h
    cases a with
    | nil =>
      cases p with
      | nil => exact absurd rfl hp
      | cons pc p' =>
        have hab' : c :: (x' ++ y) = pc :: (p' ++ b) := by simpa using hab
        injection hab' with h1 h2
        by_cases hlen : p'.length ≤ x'.length
        · right; left
          have htake : x'.take p'.length = p' := by
            have hc := congrArg (List.take p'.length) h2
            rw [List.take_append_of_le_length hlen, List.take_left] at hc
            exact hc
          have hx : x' = p' ++ x'.drop p'.length := by
            conv_lhs => rw [← List.take_append_drop p'.length x']
            rw [htake]
          refine ⟨[], x'.drop p'.length, ?_⟩
          rw [List.nil_append,
            show (pc :: p') ++ x'.drop p'.length = pc :: (p' ++ x'.drop p'.length)
              from rfl, ← h1, ← hx]
        · right; right
          push_neg at hlen
          have htake : p'.take x'.length = x' := by
            have hc := congrArg (List.take x'.length) h2
            rw [List.take_left, List.take_append_of_le_length hlen.le] at hc
            exact hc.symm
          obtain ⟨x1, cl, hxc⟩ : ∃ x1 cl, c :: x' = x1 ++ [cl] := by
            rcases List.eq_nil_or_concat (c :: x') with hnil | ⟨L, bb, hL⟩
            · cases hnil
            · exact ⟨L, bb, by simpa [List.concat_eq_append] using hL⟩
          refine ⟨x1, cl, hxc, ?_⟩
          have hmem : cl ∈ c :: x' := by rw [hxc]; simp
          have hxp : x' ++ p'.drop x'.length = p' := by
            conv_rhs => rw [← List.take_append_drop x'.length p']
            rw [htake]
          have hpfull : pc :: p' = (c :: x') ++ p'.drop x'.length := by
            rw [show (c :: x') ++ p'.drop x'.length = c :: (x' ++ p'.drop x'.length)
              from rfl, hxp, h1]
          rw [hpfull]
          exact List.mem_append_left _ hmem
    | cons a0 a' =>
      have hab' : c :: (x' ++ y) = a0 :: (a' ++ p ++ b) := by simpa using hab
      injection hab' with h1 h2
      rcases ih y ⟨a', b, h2⟩ with h | h | ⟨x1, cl, hx, hcl⟩
      · exact Or.inl h
      · right; left
        obtain ⟨a2, b2, h3⟩ := h
        exact ⟨c :: a2, b2, by simp [h3]⟩
      · right; right
        exact ⟨c :: x1, cl, by simp [hx], hcl⟩

/-- A nonempty pattern occurs nowhere in the empty list. -/
theorem not_occursIn_nil (p : List Char) (hp : p ≠ []) :
    ¬ OccursIn p ([] : List Char) := by
  rintro ⟨a, b, h⟩
  have h' := h.symm
  rw [List.append_eq_nil] at h'
  obtain ⟨h1, _⟩ := h'
  rw [List.append_eq_nil] at h1
  exact hp h1.2

/-- A prefix of a replacement result that avoids the replacement's first
character is a prefix of the original list. -/
theorem replaceAllGo_prefix_transfer (p r : List Char) (c0 : Char)
    (hr : ∃ r', r = c0 :: r') :
    ∀ (fuel : Nat) (s q : List Char), s.length ≤ fuel → c0 ∉ q →
      q <+: replaceAllGo p r fuel s → q <+: s := by
  intro fuel
  induction fuel with
  | zero => intro s q _ _ h; exact h
  | succ fuel ih =>
    intro s q hlen hq h
    cases s with
    | nil => exact h
    | cons c t =>
      by_cases hpre : p.isPrefixOf (c :: t)
      · have h' : q <+: r ++ replaceAllGo p r fuel (List.drop (p.length - 1) t) := by
          simpa [replaceAllGo, hpre] using h
        cases q with
        | nil => exact List.nil_prefix
        | cons q0 q' =>
          obtain ⟨r', hr'⟩ := hr
          obtain ⟨w, hw⟩ := h'
          rw [hr'] at hw
          have hq0 : q0 = c0 := by simpa using congrArg List.head? hw
          subst hq0
          exact absurd (List.mem_cons_self _ _) hq
      · have h' : q <+: c :: replaceAllGo p r fuel t := by
          simpa [replaceAllGo, hpre] using h
        cases q with
        | nil => exact List.nil_prefix
        | cons q0 q' =>
          obtain ⟨w, hw⟩ := h'
          have h1 : q0 = c := by simpa using congrArg List.head? hw
          have h2 : q' ++ w = replaceAllGo p r fuel t := by
            simpa using congrArg List.tail hw
          have hq' : q' <+: t := ih t q' (by simp at hlen; omega)
            (fun hc => hq (List.mem_cons_of_mem _ hc)) ⟨w, h2⟩
          obtain ⟨w', hw'⟩ := hq'
          exact ⟨w', by rw [h1]; simp [hw']⟩

/-- Core redaction property: replacing every occurrence of a nonempty
pattern `p` that avoids the replacement's boundary character leaves no
occurrence of `p`, provided `p` does not occur inside the replacement
text itself. -/
theorem replaceAllGo_no_occurrence (p r : List Char) (c0 : Char)
    (hp : p ≠ []) (hstar : c0 ∉ p) (hnr : ¬ OccursIn p r)
    (hrh : ∃ r', r = c0 :: r') (hrl : ∃ r'', r = r'' ++ [c0]) :
    ∀ (fuel : Nat) (s : List Char), s.length ≤ fuel →
      ¬ OccursIn p (replaceAllGo p r fuel s) := by
  intro fuel
  induction fuel with
  | zero =>
    intro s hlen hocc
    have hs : s = [] := List.length_eq_zero.mp (Nat.le_zero.mp hlen)
    subst hs
    exact not_occursIn_nil p hp hocc
  | succ fuel ih =>
    intro s hlen hocc
    cases s with
    | nil => exact not_occursIn_nil p hp hocc
    | cons c t =>
      by_cases hpre : p.isPrefixOf (c :: t)
      · have hocc' : OccursIn p
            (r ++ replaceAllGo p r fuel (List.drop (p.length - 1) t)) := by
          simpa [replaceAllGo, hpre] using hocc
        rcases occursIn_append_cases p hp r _ hocc' with h | h | ⟨x1, cl, hx, hcl⟩
        · refine ih _ ?_ h
          have hd := List.length_drop (p.length - 1) t
          simp at hlen
          omega
        · exact hnr h
        · obtain ⟨r'', hr''⟩ := hrl
          have hcc : cl = c0 := by
            have h1 : (x1 ++ [cl]).getLast? = some cl := by
              simp [List.getLast?_concat]
            rw [← hx, hr''] at h1
            simpa [List.getLast?_concat] using h1.symm
          exact hstar (hcc ▸ hcl)
      · have hocc' : OccursIn p (c :: replaceAllGo p r fuel t) := by
          simpa [replaceAllGo, hpre] using hocc
        obtain ⟨a, b, hab⟩ := hocc'
        cases a with
        | nil =>
          cases p with
          | nil => exact hp rfl
          | cons pc p' =>
            have hab' : c :: replaceAllGo (pc :: p') r fuel t = pc :: (p' ++ b) := by
              simpa using hab
            injection hab' with h1 h2
            have hq : p' <+: t :=
              replaceAllGo_prefix_transfer (pc :: p') r c0 hrh fuel t p'
                (by simp at hlen; omega)
                (fun hc => hstar (List.mem_cons_of_mem _ hc)) ⟨b, h2.symm⟩
            obtain ⟨w, hw⟩ := hq
            apply hpre
            apply List.isPrefixOf_iff_prefix.mpr
            refine ⟨w, ?_⟩
            rw [show (pc :: p') ++ w = pc :: (p' ++ w) from rfl, ← h1, hw]
        | cons a0 a' =>
          have hab' : c :: replaceAllGo p r fuel t = a0 :: (a' ++ p ++ b) := by
            simpa using hab
          injection hab' with h1 h2
          exact ih t (by simp at hlen; omega) ⟨a', b, h2⟩

/-- C6 (amended): the IOS XE adapter's `sanitize_error_message` removes
the configured password from every message by substring replacement:
whenever the password is nonempty (Python truthiness), contains no
asterisk, and does not itself occur inside the redaction marker
`***REDACTED***`, the sanitized message does not contain the literal
password.  The Catalyst Center adapter, by contrast, applies no redaction
to its authentication log lines (see the counterexample). -/
theorem sanitize_error_message_removes_password :
    ∀ (password error_msg : String),
      password.toList ≠ [] →
      ('*' : Char) ∉ password.toList →
      ¬ OccursIn password.toList "***REDACTED***".toList →
      ¬ OccursIn password.toList
        (sanitize_error_message password error_msg).toList := by
  intro password msg hp hstar hnr hocc
  unfold sanitize_error_message at hocc
  by_cases hguard : (password != "" && strContains msg password) = true
  · rw [if_pos hguard] at hocc
    have hocc' : OccursIn password.toList
        (replaceAllGo password.toList "***REDACTED***".toList
          msg.toList.length msg.toList) := hocc
    exact replaceAllGo_no_occurrence password.toList "***REDACTED***".toList '*'
      hp hstar hnr ⟨"**REDACTED***".toList, by decide⟩
      ⟨"***REDACTED**".toList, by decide⟩
      msg.toList.length msg.toList (Nat.le_refl _) hocc'
  · rw [if_neg hguard] at hocc
    have hpw : (password != "") = true := by
      by_cases he : password = ""
      · exact absurd (by rw [he]; rfl) hp
      · simp [he]
    have hsc : strContains msg password = false := by
      cases hb : strContains msg password
      · rfl
      · simp [hpw, hb] at hguard
    have hT := (isSubstringL_iff password.toList msg.toList).mpr hocc
    rw [show isSubstringL password.toList msg.toList = strContains msg password
      from rfl, hsc] at hT
    cases hT

/-- C6 witness: a concrete failure message embedding the password is
sanitized, and the password no longer occurs in it. -/
theorem sanitize_error_message_removes_password_witness :
    ¬ OccursIn "hunter2".toList
      (sanitize_error_message "hunter2"
        "Authentication failed for admin:hunter2 on 10.0.0.1").toList ∧
    sanitize_error_message "hunter2"
      "Authentication failed for admin:hunter2 on 10.0.0.1" =
      "Authentication failed for admin:***REDACTED*** on 10.0.0.1" := by
  constructor
  · exact sanitize_error_message_removes_password "hunter2" _ (by decide) (by decide)
      (fun hocc => by
        have hT := (isSubstringL_iff _ _).mpr hocc
        revert hT
        decide)
  · decide

/-- C6 counterexample: the Catalyst Center adapter's authentication
failure log line is the raw f-string of the exception text with no
substring replacement, so when the failure text embeds the password the
emitted log line contains the literal password — refuting the claim for
"every error message and log line produced by an adapter". -/
theorem catc_auth_log_contains_password :
    (CatalystCenterAPI.authenticate upAuthExn ⟨none⟩ Trace.init).2.2.logs =
      ["❌ Authentication error: Authentication error for admin:hunter2@10.0.0.1"] ∧
    OccursIn "hunter2".toList
      "❌ Authentication error: Authentication error for admin:hunter2@10.0.0.1".toList := by
  refine ⟨rfl,
    ⟨"❌ Authentication error: Authentication error for admin:".toList,
      "@10.0.0.1".toList, ?_⟩⟩
  decide
